import Mathlib

/-! The invitation handler of `server/invitation.go`.

A shallow embedding of `InvitationHandler.ServeHTTP`, `handleGET` and
`handlePOST`.  The handler is straight-line code around four collaborators
(key retrieval, token validation, `VerifyEmail`, `ChangePassword`) and four
response sinks (`execTemplate`, `execTemplateWithStatus`, `http.Redirect`,
`writeAPIError`).  The collaborators are fields of the handler record and
thread an explicit world state `σ`; every call made on a collaborator or on
the logger is recorded, in program order, in a trace, so that "this call is
never made" is a statement about the trace.
-/

namespace Server

/-! ## Data model -/

/-- Modelled from the spec: the error sentinels of package `user`, whose
declarations are outside this file.  Go `error` values that are not `nil`: the
four named constructors are the sentinels the handler compares against
(`user.ErrorEmailAlreadyVerified`, `user.ErrorEVEmailDoesntMatch`,
`user.ErrorPasswordAlreadyChanged`, `user.ErrorInvalidPassword`), pairwise
distinct values; `other` stands for every remaining error value.  A Go `error`
is `Option Err`, `none` being `nil`. -/
inductive Err where
  | ErrorEmailAlreadyVerified
  | ErrorEVEmailDoesntMatch
  | ErrorPasswordAlreadyChanged
  | ErrorInvalidPassword
  | other (text : String)
  deriving DecidableEq, Repr

/-- The three things the handler reads from `*http.Request`: `r.Method`,
`r.URL.Query().Get(key)` and `r.FormValue(key)`. -/
structure Request where
  Method : String
  URLQueryGet : String → String
  FormValue : String → String

/-- Modelled from the spec: the record `resetPasswordTemplateData` handed to the
template, whose declaration is in another file of the package.  The fields are
the five the handler sets (title, message, token to embed, form suppression,
success flag), and an omitted field has the Go zero value. -/
structure resetPasswordTemplateData where
  Error : String := ""
  Message : String := ""
  Token : String := ""
  DontShowForm : Bool := false
  Success : Bool := false
  deriving DecidableEq, Repr

/-- `http.StatusSeeOther`. -/
def StatusSeeOther : Nat := 303

/-- `http.StatusBadRequest`. -/
def StatusBadRequest : Nat := 400

/-- `http.StatusMethodNotAllowed`. -/
def StatusMethodNotAllowed : Nat := 405

/-- `http.StatusInternalServerError`. -/
def StatusInternalServerError : Nat := 500

/-- What the handler writes to the `http.ResponseWriter`: the one sink it calls,
with the arguments of the call (the writer `w` and the template `h.tpl` are the
same in every call and are left out).  `writeAPIError code typ desc` is the call
`writeAPIError(w, code, newAPIError(typ, desc))`. -/
inductive Response where
  | execTemplate (data : resetPasswordTemplateData)
  | execTemplateWithStatus (data : resetPasswordTemplateData) (status : Nat)
  | Redirect (target : String) (code : Nat)
  | writeAPIError (code : Nat) (typ : String) (desc : String)
  deriving DecidableEq, Repr

/-- One call made by the handler on a collaborator or on the logger. -/
inductive Event (K I : Type) where
  | keysFunc
  | ParseAndVerifyInvitationToken (token : String) (keys : List K)
  | VerifyEmail (invite : I)
  | ChangePassword (invite : I) (plaintext : String)
  | Errorf (format : String) (err : Option Err)
  | Debugf (format : String) (err : Option Err)

/-- An event is a call on the account store (`h.um`). -/
def Event.isStoreOp {K I : Type} : Event K I → Bool
  | .VerifyEmail _ => true
  | .ChangePassword _ _ => true
  | _ => false

/-- An event is a call of the token validator. -/
def Event.isTokenValidation {K I : Type} : Event K I → Bool
  | .ParseAndVerifyInvitationToken _ _ => true
  | _ => false

/-- An event is a call of the key source. -/
def Event.isKeyRetrieval {K I : Type} : Event K I → Bool
  | .keysFunc => true
  | _ => false

/-- The account-store calls of a trace, in order. -/
def storeCalls {K I : Type} (tr : List (Event K I)) : List (Event K I) :=
  tr.filter Event.isStoreOp

/-- The token-validation calls of a trace, in order. -/
def tokenValidations {K I : Type} (tr : List (Event K I)) : List (Event K I) :=
  tr.filter Event.isTokenValidation

/-- The key-retrieval calls of a trace, in order. -/
def keyRetrievals {K I : Type} (tr : List (Event K I)) : List (Event K I) :=
  tr.filter Event.isKeyRetrieval

/-- The user manager `h.um`, by the two methods the handler calls.  Both read and
update the world state; `VerifyEmail` also returns a value that the handler
discards, which is left out. -/
structure Manager (σ I L : Type) where
  VerifyEmail : σ → I → σ × Option Err
  ChangePassword : σ → I → String → σ × Option L × Option Err

/-- The handler record `InvitationHandler` (`issuerURL`, `um`, `keysFunc`; the
template `tpl` is left out), together with the package-level names the handler
uses whose definitions are outside this file: `user.ParseAndVerifyInvitationToken`,
the method `(*url.URL).String` and the constant `errorInvalidRequest`.
`K` is `key.PublicKey`, `I` the invitation type, `L` is `url.URL`. -/
structure InvitationHandler (σ K I L : Type) where
  issuerURL : L
  um : Manager σ I L
  keysFunc : σ → σ × List K × Option Err
  ParseAndVerifyInvitationToken : σ → String → L → List K → σ × I × Option Err
  urlString : L → String
  errorInvalidRequest : String

/-- The result of serving one request: the world state afterwards, the calls made
in program order, and the response written. -/
structure Step (σ K I : Type) where
  state : σ
  trace : List (Event K I)
  resp : Response

variable {σ K I L : Type}

/-! ## The handler -/

/-- Method `InvitationHandler.handleGET`. -/
def handleGET (h : InvitationHandler σ K I L) (s : σ) (r : Request) : Step σ K I :=
  let token := r.URLQueryGet "token"
  let (s1, keys, err) := h.keysFunc s
  if err ≠ none then
    { state := s1
      trace := [.keysFunc, .Errorf "internal error getting public keys: %v" err]
      resp := .execTemplateWithStatus
        { Error := "There's been an error processing your request."
          Message := "Please try again later."
          DontShowForm := true } StatusInternalServerError }
  else
  let (s2, invite, err) := h.ParseAndVerifyInvitationToken s1 token h.issuerURL keys
  if err ≠ none then
    { state := s2
      trace := [.keysFunc, .ParseAndVerifyInvitationToken token keys,
        .Debugf "invalid invitation token: %v" err]
      resp := .execTemplateWithStatus
        { Error := "Bad Invitation Token"
          Message := "Your invitation could not be verified"
          DontShowForm := true } StatusBadRequest }
  else
  let (s3, err) := h.um.VerifyEmail s2 invite
  if err ≠ none ∧ err ≠ some Err.ErrorEmailAlreadyVerified then
    match err with
    | some Err.ErrorEVEmailDoesntMatch =>
      { state := s3
        trace := [.keysFunc, .ParseAndVerifyInvitationToken token keys, .VerifyEmail invite,
          .Debugf "error attempting to verify email: %v" err]
        resp := .execTemplateWithStatus
          { Error := "Invalid Invitation Link"
            Message := "Your email does not match the email address on file."
            DontShowForm := true } StatusBadRequest }
    | some Err.ErrorPasswordAlreadyChanged =>
      { state := s3
        trace := [.keysFunc, .ParseAndVerifyInvitationToken token keys, .VerifyEmail invite,
          .Debugf "error attempting to verify email: %v" err]
        resp := .execTemplateWithStatus
          { Error := "Link Expired"
            Message := "Your invitation link is no longer valid. Please request a new one"
            DontShowForm := true } StatusBadRequest }
    | _ =>
      { state := s3
        trace := [.keysFunc, .ParseAndVerifyInvitationToken token keys, .VerifyEmail invite,
          .Debugf "error attempting to verify email: %v" err,
          .Errorf "internal error verifying email: %v" err]
        resp := .execTemplateWithStatus
          { Error := "Error Processing Request"
            Message := "Please try again later."
            DontShowForm := true } StatusInternalServerError }
  else
    { state := s3
      trace := [.keysFunc, .ParseAndVerifyInvitationToken token keys, .VerifyEmail invite]
      resp := .execTemplate { Token := token } }

/-- Method `InvitationHandler.handlePOST`. -/
def handlePOST (h : InvitationHandler σ K I L) (s : σ) (r : Request) : Step σ K I :=
  let token := r.FormValue "token"
  let plaintext := r.FormValue "password"
  let (s1, keys, err) := h.keysFunc s
  if err ≠ none then
    { state := s1
      trace := [.keysFunc, .Errorf "error getting public keys: %v" err]
      resp := .execTemplateWithStatus
        { Error := "There's been an error processing your request."
          Message := "Please try again later."
          DontShowForm := true } StatusInternalServerError }
  else
  let (s2, invite, err) := h.ParseAndVerifyInvitationToken s1 token h.issuerURL keys
  if err ≠ none then
    { state := s2
      trace := [.keysFunc, .ParseAndVerifyInvitationToken token keys,
        .Debugf "invalid invitation token: %v" err]
      resp := .execTemplateWithStatus
        { Error := "Bad Invitation Token"
          Message := "Your invitation could not be verified"
          DontShowForm := true } StatusBadRequest }
  else
  let (s3, cbURL, err) := h.um.ChangePassword s2 invite plaintext
  if err ≠ none then
    match err with
    | some Err.ErrorPasswordAlreadyChanged =>
      { state := s3
        trace := [.keysFunc, .ParseAndVerifyInvitationToken token keys,
          .ChangePassword invite plaintext,
          .Debugf "error attempting to change password: %v" err]
        resp := .execTemplateWithStatus
          { Error := "Link Expired"
            Message := "The invitation is no longer valid. If you need to change your password, generate a new password change email."
            DontShowForm := true } StatusBadRequest }
    | some Err.ErrorInvalidPassword =>
      { state := s3
        trace := [.keysFunc, .ParseAndVerifyInvitationToken token keys,
          .ChangePassword invite plaintext,
          .Debugf "error attempting to change password: %v" err]
        resp := .execTemplateWithStatus
          { Error := "Invalid Password"
            Message := "Please choose a password which is at least six characters."
            Token := token } StatusBadRequest }
    | _ =>
      { state := s3
        trace := [.keysFunc, .ParseAndVerifyInvitationToken token keys,
          .ChangePassword invite plaintext,
          .Debugf "error attempting to change password: %v" err,
          .Errorf "internal error changing password: %v" err]
        resp := .execTemplateWithStatus
          { Error := "Error Processing Request"
            Message := "Please try again later"
            DontShowForm := true } StatusInternalServerError }
  else
  match cbURL with
  | none =>
    { state := s3
      trace := [.keysFunc, .ParseAndVerifyInvitationToken token keys,
        .ChangePassword invite plaintext]
      resp := .execTemplate { Success := true } }
  | some u =>
    { state := s3
      trace := [.keysFunc, .ParseAndVerifyInvitationToken token keys,
        .ChangePassword invite plaintext]
      resp := .Redirect (h.urlString u) StatusSeeOther }

/-- Method `InvitationHandler.ServeHTTP`. -/
def ServeHTTP (h : InvitationHandler σ K I L) (s : σ) (r : Request) : Step σ K I :=
  if r.Method = "GET" then handleGET h s r
  else if r.Method = "POST" then handlePOST h s r
  else
    { state := s
      trace := []
      resp := .writeAPIError StatusMethodNotAllowed h.errorInvalidRequest "method not allowed" }

/-! ## The collaborator results along one request

The handler calls its collaborators in a fixed order, each on the state left by
the previous one.  The definitions below name the result of each call for a
request that starts in state `s`. -/

/-- The error returned by `h.keysFunc()`. -/
def keysErr (h : InvitationHandler σ K I L) (s : σ) : Option Err :=
  (h.keysFunc s).2.2

/-- The keys returned by `h.keysFunc()`. -/
def keysOf (h : InvitationHandler σ K I L) (s : σ) : List K :=
  (h.keysFunc s).2.1

/-- The state after `h.keysFunc()`. -/
def afterKeys (h : InvitationHandler σ K I L) (s : σ) : σ :=
  (h.keysFunc s).1

/-- The error returned by `user.ParseAndVerifyInvitationToken(token, h.issuerURL, keys)`. -/
def tokenErr (h : InvitationHandler σ K I L) (s : σ) (token : String) : Option Err :=
  (h.ParseAndVerifyInvitationToken (afterKeys h s) token h.issuerURL (keysOf h s)).2.2

/-- The invitation returned by `user.ParseAndVerifyInvitationToken`. -/
def inviteOf (h : InvitationHandler σ K I L) (s : σ) (token : String) : I :=
  (h.ParseAndVerifyInvitationToken (afterKeys h s) token h.issuerURL (keysOf h s)).2.1

/-- The state after `user.ParseAndVerifyInvitationToken`. -/
def afterToken (h : InvitationHandler σ K I L) (s : σ) (token : String) : σ :=
  (h.ParseAndVerifyInvitationToken (afterKeys h s) token h.issuerURL (keysOf h s)).1

/-- The error returned by `h.um.VerifyEmail(invite)`. -/
def verifyErr (h : InvitationHandler σ K I L) (s : σ) (token : String) : Option Err :=
  (h.um.VerifyEmail (afterToken h s token) (inviteOf h s token)).2

/-- The state after `h.um.VerifyEmail(invite)`. -/
def afterVerify (h : InvitationHandler σ K I L) (s : σ) (token : String) : σ :=
  (h.um.VerifyEmail (afterToken h s token) (inviteOf h s token)).1

/-- The error returned by `h.um.ChangePassword(invite, plaintext)`. -/
def changeErr (h : InvitationHandler σ K I L) (s : σ) (token plaintext : String) : Option Err :=
  (h.um.ChangePassword (afterToken h s token) (inviteOf h s token) plaintext).2.2

/-- The callback URL returned by `h.um.ChangePassword(invite, plaintext)`. -/
def changeURL (h : InvitationHandler σ K I L) (s : σ) (token plaintext : String) : Option L :=
  (h.um.ChangePassword (afterToken h s token) (inviteOf h s token) plaintext).2.1

/-- The state after `h.um.ChangePassword(invite, plaintext)`. -/
def afterChange (h : InvitationHandler σ K I L) (s : σ) (token plaintext : String) : σ :=
  (h.um.ChangePassword (afterToken h s token) (inviteOf h s token) plaintext).1

/-- Serving a list of requests one after the other, each on the state left by the
previous one; the responses in order. -/
def serveAll (h : InvitationHandler σ K I L) : σ → List Request → List Response
  | _, [] => []
  | s, r :: rs => (ServeHTTP h s r).resp :: serveAll h (ServeHTTP h s r).state rs

/-! ## A concrete account store

A small executable store on which the statements below are instantiated. -/

/-- The world of the concrete store: whether the key source and the database
answer, the account on file, and the callback recorded with the invitation. -/
structure DemoWorld where
  keysUp : Bool
  dbUp : Bool
  email : String
  emailVerified : Bool
  passwordSet : Bool
  callback : Option String
  deriving DecidableEq, Repr

/-- The concrete handler: a token is the email it asserts, and the empty token is
malformed; a password needs six characters. -/
def demoHandler : InvitationHandler DemoWorld Nat String String where
  issuerURL := "https://issuer.example"
  keysFunc := fun w => if w.keysUp then (w, [1], none) else (w, [], some (Err.other "no keys"))
  ParseAndVerifyInvitationToken := fun w token _ _ =>
    if token = "" then (w, "", some (Err.other "malformed")) else (w, token, none)
  um :=
    { VerifyEmail := fun w invite =>
        if w.dbUp = false then (w, some (Err.other "db"))
        else if w.passwordSet then (w, some Err.ErrorPasswordAlreadyChanged)
        else if invite ≠ w.email then (w, some Err.ErrorEVEmailDoesntMatch)
        else if w.emailVerified then (w, some Err.ErrorEmailAlreadyVerified)
        else ({ w with emailVerified := true }, none)
      ChangePassword := fun w invite plaintext =>
        if w.dbUp = false then (w, none, some (Err.other "db"))
        else if w.passwordSet then (w, none, some Err.ErrorPasswordAlreadyChanged)
        else if invite ≠ w.email then (w, none, some Err.ErrorEVEmailDoesntMatch)
        else if plaintext.length < 6 then (w, none, some Err.ErrorInvalidPassword)
        else ({ w with passwordSet := true }, w.callback, none) }
  urlString := fun u => u
  errorInvalidRequest := "invalid_request"

/-- A fresh invitation for `a@x.org`, nothing verified or set yet. -/
def demoFresh : DemoWorld :=
  { keysUp := true, dbUp := true, email := "a@x.org", emailVerified := false,
    passwordSet := false, callback := none }

/-- The same account after the password has been set through the invitation. -/
def demoConsumed : DemoWorld :=
  { keysUp := true, dbUp := true, email := "a@x.org", emailVerified := true,
    passwordSet := true, callback := none }

/-- The same account with the email verified and no password set. -/
def demoVerified : DemoWorld :=
  { keysUp := true, dbUp := true, email := "a@x.org", emailVerified := true,
    passwordSet := false, callback := none }

/-- A fresh invitation that records a callback URL. -/
def demoCallback : DemoWorld :=
  { keysUp := true, dbUp := true, email := "a@x.org", emailVerified := false,
    passwordSet := false, callback := some "https://app.example/done" }

/-- A world whose key source is down. -/
def demoNoKeys : DemoWorld :=
  { keysUp := false, dbUp := true, email := "a@x.org", emailVerified := false,
    passwordSet := false, callback := none }

/-- A world whose database is down. -/
def demoNoDb : DemoWorld :=
  { keysUp := true, dbUp := false, email := "a@x.org", emailVerified := false,
    passwordSet := false, callback := none }

/-- A request with the given method, token and password (the token is readable
both from the URL query and from the form). -/
def demoRequest (method token password : String) : Request where
  Method := method
  URLQueryGet := fun k => if k = "token" then token else ""
  FormValue := fun k => if k = "token" then token else if k = "password" then password else ""

/-- Calling `handleGET` with the same request `n` times in a row, each call on the
state left by the previous one; the responses in order. -/
def viewTimes (h : InvitationHandler σ K I L) (r : Request) : Nat → σ → List Response
  | 0, _ => []
  | n + 1, s => (handleGET h s r).resp :: viewTimes h r n (handleGET h s r).state

/-! ## The outcome vocabulary

Names for the responses the handler writes, in the words used for them in the
documentation of the flow. -/

/-- A terminal error: the template rendered with an error title and message under
an explicit status, the form suppressed, no token embedded. -/
def TerminalError (title message : String) (status : Nat) : Response :=
  .execTemplateWithStatus
    { Error := title, Message := message, Token := "", DontShowForm := true, Success := false }
    status

/-- A recoverable error: the template rendered with an error title and message
under an explicit status, the form shown, the token embedded. -/
def RecoverableError (title message token : String) (status : Nat) : Response :=
  .execTemplateWithStatus
    { Error := title, Message := message, Token := token, DontShowForm := false,
      Success := false }
    status

/-- The password form bound to a token: the template rendered without an explicit
status, no error title, no message. -/
def ShowForm (token : String) : Response :=
  .execTemplate
    { Error := "", Message := "", Token := token, DontShowForm := false, Success := false }

/-- The success page: the template rendered without an explicit status, `Success` set. -/
def SuccessPage : Response :=
  .execTemplate
    { Error := "", Message := "", Token := "", DontShowForm := false, Success := true }

/-! ## The branches of the handler

One lemma per return statement of `handleGET` and `handlePOST`: the condition
under which it is reached, in terms of the collaborator results, and the whole
step it produces. -/

theorem handleGET_keys_failed (h : InvitationHandler σ K I L) (s : σ) (r : Request)
    (hk : keysErr h s ≠ none) :
    handleGET h s r =
      { state := afterKeys h s
        trace := [.keysFunc, .Errorf "internal error getting public keys: %v" (keysErr h s)]
        resp := .execTemplateWithStatus
          { Error := "There's been an error processing your request."
            Message := "Please try again later."
            DontShowForm := true } StatusInternalServerError } := by
  unfold handleGET
  simp only [keysErr, afterKeys] at *
  rw [if_pos hk]

theorem handleGET_token_failed (h : InvitationHandler σ K I L) (s : σ) (r : Request)
    (hk : keysErr h s = none) (ht : tokenErr h s (r.URLQueryGet "token") ≠ none) :
    handleGET h s r =
      { state := afterToken h s (r.URLQueryGet "token")
        trace := [.keysFunc, .ParseAndVerifyInvitationToken (r.URLQueryGet "token") (keysOf h s),
          .Debugf "invalid invitation token: %v" (tokenErr h s (r.URLQueryGet "token"))]
        resp := .execTemplateWithStatus
          { Error := "Bad Invitation Token"
            Message := "Your invitation could not be verified"
            DontShowForm := true } StatusBadRequest } := by
  unfold handleGET
  simp only [keysErr, afterKeys, keysOf, tokenErr, afterToken] at *
  rw [if_neg (not_not.mpr hk), if_pos ht]

theorem handleGET_pass (h : InvitationHandler σ K I L) (s : σ) (r : Request)
    (hk : keysErr h s = none) (ht : tokenErr h s (r.URLQueryGet "token") = none)
    (hv : verifyErr h s (r.URLQueryGet "token") = none ∨
      verifyErr h s (r.URLQueryGet "token") = some Err.ErrorEmailAlreadyVerified) :
    handleGET h s r =
      { state := afterVerify h s (r.URLQueryGet "token")
        trace := [.keysFunc, .ParseAndVerifyInvitationToken (r.URLQueryGet "token") (keysOf h s),
          .VerifyEmail (inviteOf h s (r.URLQueryGet "token"))]
        resp := .execTemplate { Token := r.URLQueryGet "token" } } := by
  unfold handleGET
  simp only [keysErr, afterKeys, keysOf, tokenErr, afterToken, verifyErr, inviteOf,
    afterVerify] at *
  rw [if_neg (not_not.mpr hk), if_neg (not_not.mpr ht), if_neg]
  rintro ⟨h1, h2⟩
  rcases hv with hv | hv
  · exact h1 hv
  · exact h2 hv

theorem handleGET_mismatch (h : InvitationHandler σ K I L) (s : σ) (r : Request)
    (hk : keysErr h s = none) (ht : tokenErr h s (r.URLQueryGet "token") = none)
    (hv : verifyErr h s (r.URLQueryGet "token") = some Err.ErrorEVEmailDoesntMatch) :
    handleGET h s r =
      { state := afterVerify h s (r.URLQueryGet "token")
        trace := [.keysFunc, .ParseAndVerifyInvitationToken (r.URLQueryGet "token") (keysOf h s),
          .VerifyEmail (inviteOf h s (r.URLQueryGet "token")),
          .Debugf "error attempting to verify email: %v" (some Err.ErrorEVEmailDoesntMatch)]
        resp := .execTemplateWithStatus
          { Error := "Invalid Invitation Link"
            Message := "Your email does not match the email address on file."
            DontShowForm := true } StatusBadRequest } := by
  unfold handleGET
  simp only [keysErr, afterKeys, keysOf, tokenErr, afterToken, verifyErr, inviteOf,
    afterVerify] at *
  rw [if_neg (not_not.mpr hk), if_neg (not_not.mpr ht), hv, if_pos (by simp)]

theorem handleGET_already_changed (h : InvitationHandler σ K I L) (s : σ) (r : Request)
    (hk : keysErr h s = none) (ht : tokenErr h s (r.URLQueryGet "token") = none)
    (hv : verifyErr h s (r.URLQueryGet "token") = some Err.ErrorPasswordAlreadyChanged) :
    handleGET h s r =
      { state := afterVerify h s (r.URLQueryGet "token")
        trace := [.keysFunc, .ParseAndVerifyInvitationToken (r.URLQueryGet "token") (keysOf h s),
          .VerifyEmail (inviteOf h s (r.URLQueryGet "token")),
          .Debugf "error attempting to verify email: %v" (some Err.ErrorPasswordAlreadyChanged)]
        resp := .execTemplateWithStatus
          { Error := "Link Expired"
            Message := "Your invitation link is no longer valid. Please request a new one"
            DontShowForm := true } StatusBadRequest } := by
  unfold handleGET
  simp only [keysErr, afterKeys, keysOf, tokenErr, afterToken, verifyErr, inviteOf,
    afterVerify] at *
  rw [if_neg (not_not.mpr hk), if_neg (not_not.mpr ht), hv, if_pos (by simp)]

theorem handleGET_unexpected (h : InvitationHandler σ K I L) (s : σ) (r : Request) (e : Err)
    (hk : keysErr h s = none) (ht : tokenErr h s (r.URLQueryGet "token") = none)
    (hv : verifyErr h s (r.URLQueryGet "token") = some e)
    (h1 : e ≠ Err.ErrorEmailAlreadyVerified) (h2 : e ≠ Err.ErrorEVEmailDoesntMatch)
    (h3 : e ≠ Err.ErrorPasswordAlreadyChanged) :
    handleGET h s r =
      { state := afterVerify h s (r.URLQueryGet "token")
        trace := [.keysFunc, .ParseAndVerifyInvitationToken (r.URLQueryGet "token") (keysOf h s),
          .VerifyEmail (inviteOf h s (r.URLQueryGet "token")),
          .Debugf "error attempting to verify email: %v" (some e),
          .Errorf "internal error verifying email: %v" (some e)]
        resp := .execTemplateWithStatus
          { Error := "Error Processing Request"
            Message := "Please try again later."
            DontShowForm := true } StatusInternalServerError } := by
  unfold handleGET
  simp only [keysErr, afterKeys, keysOf, tokenErr, afterToken, verifyErr, inviteOf,
    afterVerify] at *
  rw [if_neg (not_not.mpr hk), if_neg (not_not.mpr ht), hv, if_pos (by simp [h1])]
  cases e <;> simp_all

theorem handlePOST_keys_failed (h : InvitationHandler σ K I L) (s : σ) (r : Request)
    (hk : keysErr h s ≠ none) :
    handlePOST h s r =
      { state := afterKeys h s
        trace := [.keysFunc, .Errorf "error getting public keys: %v" (keysErr h s)]
        resp := .execTemplateWithStatus
          { Error := "There's been an error processing your request."
            Message := "Please try again later."
            DontShowForm := true } StatusInternalServerError } := by
  unfold handlePOST
  simp only [keysErr, afterKeys] at *
  rw [if_pos hk]

theorem handlePOST_token_failed (h : InvitationHandler σ K I L) (s : σ) (r : Request)
    (hk : keysErr h s = none) (ht : tokenErr h s (r.FormValue "token") ≠ none) :
    handlePOST h s r =
      { state := afterToken h s (r.FormValue "token")
        trace := [.keysFunc, .ParseAndVerifyInvitationToken (r.FormValue "token") (keysOf h s),
          .Debugf "invalid invitation token: %v" (tokenErr h s (r.FormValue "token"))]
        resp := .execTemplateWithStatus
          { Error := "Bad Invitation Token"
            Message := "Your invitation could not be verified"
            DontShowForm := true } StatusBadRequest } := by
  unfold handlePOST
  simp only [keysErr, afterKeys, keysOf, tokenErr, afterToken] at *
  rw [if_neg (not_not.mpr hk), if_pos ht]

theorem handlePOST_already_changed (h : InvitationHandler σ K I L) (s : σ) (r : Request)
    (hk : keysErr h s = none) (ht : tokenErr h s (r.FormValue "token") = none)
    (hc : changeErr h s (r.FormValue "token") (r.FormValue "password") =
      some Err.ErrorPasswordAlreadyChanged) :
    handlePOST h s r =
      { state := afterChange h s (r.FormValue "token") (r.FormValue "password")
        trace := [.keysFunc, .ParseAndVerifyInvitationToken (r.FormValue "token") (keysOf h s),
          .ChangePassword (inviteOf h s (r.FormValue "token")) (r.FormValue "password"),
          .Debugf "error attempting to change password: %v"
            (some Err.ErrorPasswordAlreadyChanged)]
        resp := .execTemplateWithStatus
          { Error := "Link Expired"
            Message := "The invitation is no longer valid. If you need to change your password, generate a new password change email."
            DontShowForm := true } StatusBadRequest } := by
  unfold handlePOST
  simp only [keysErr, afterKeys, keysOf, tokenErr, afterToken, changeErr, inviteOf,
    afterChange] at *
  rw [if_neg (not_not.mpr hk), if_neg (not_not.mpr ht), hc, if_pos (by simp)]

theorem handlePOST_invalid_password (h : InvitationHandler σ K I L) (s : σ) (r : Request)
    (hk : keysErr h s = none) (ht : tokenErr h s (r.FormValue "token") = none)
    (hc : changeErr h s (r.FormValue "token") (r.FormValue "password") =
      some Err.ErrorInvalidPassword) :
    handlePOST h s r =
      { state := afterChange h s (r.FormValue "token") (r.FormValue "password")
        trace := [.keysFunc, .ParseAndVerifyInvitationToken (r.FormValue "token") (keysOf h s),
          .ChangePassword (inviteOf h s (r.FormValue "token")) (r.FormValue "password"),
          .Debugf "error attempting to change password: %v" (some Err.ErrorInvalidPassword)]
        resp := .execTemplateWithStatus
          { Error := "Invalid Password"
            Message := "Please choose a password which is at least six characters."
            Token := r.FormValue "token" } StatusBadRequest } := by
  unfold handlePOST
  simp only [keysErr, afterKeys, keysOf, tokenErr, afterToken, changeErr, inviteOf,
    afterChange] at *
  rw [if_neg (not_not.mpr hk), if_neg (not_not.mpr ht), hc, if_pos (by simp)]

theorem handlePOST_unexpected (h : InvitationHandler σ K I L) (s : σ) (r : Request) (e : Err)
    (hk : keysErr h s = none) (ht : tokenErr h s (r.FormValue "token") = none)
    (hc : changeErr h s (r.FormValue "token") (r.FormValue "password") = some e)
    (h1 : e ≠ Err.ErrorPasswordAlreadyChanged) (h2 : e ≠ Err.ErrorInvalidPassword) :
    handlePOST h s r =
      { state := afterChange h s (r.FormValue "token") (r.FormValue "password")
        trace := [.keysFunc, .ParseAndVerifyInvitationToken (r.FormValue "token") (keysOf h s),
          .ChangePassword (inviteOf h s (r.FormValue "token")) (r.FormValue "password"),
          .Debugf "error attempting to change password: %v" (some e),
          .Errorf "internal error changing password: %v" (some e)]
        resp := .execTemplateWithStatus
          { Error := "Error Processing Request"
            Message := "Please try again later"
            DontShowForm := true } StatusInternalServerError } := by
  unfold handlePOST
  simp only [keysErr, afterKeys, keysOf, tokenErr, afterToken, changeErr, inviteOf,
    afterChange] at *
  rw [if_neg (not_not.mpr hk), if_neg (not_not.mpr ht), hc, if_pos (by simp)]
  cases e <;> simp_all

theorem handlePOST_success_page (h : InvitationHandler σ K I L) (s : σ) (r : Request)
    (hk : keysErr h s = none) (ht : tokenErr h s (r.FormValue "token") = none)
    (hc : changeErr h s (r.FormValue "token") (r.FormValue "password") = none)
    (hu : changeURL h s (r.FormValue "token") (r.FormValue "password") = none) :
    handlePOST h s r =
      { state := afterChange h s (r.FormValue "token") (r.FormValue "password")
        trace := [.keysFunc, .ParseAndVerifyInvitationToken (r.FormValue "token") (keysOf h s),
          .ChangePassword (inviteOf h s (r.FormValue "token")) (r.FormValue "password")]
        resp := .execTemplate { Success := true } } := by
  unfold handlePOST
  simp only [keysErr, afterKeys, keysOf, tokenErr, afterToken, changeErr, inviteOf,
    afterChange, changeURL] at *
  rw [if_neg (not_not.mpr hk), if_neg (not_not.mpr ht), if_neg (not_not.mpr hc), hu]

theorem handlePOST_redirect (h : InvitationHandler σ K I L) (s : σ) (r : Request) (u : L)
    (hk : keysErr h s = none) (ht : tokenErr h s (r.FormValue "token") = none)
    (hc : changeErr h s (r.FormValue "token") (r.FormValue "password") = none)
    (hu : changeURL h s (r.FormValue "token") (r.FormValue "password") = some u) :
    handlePOST h s r =
      { state := afterChange h s (r.FormValue "token") (r.FormValue "password")
        trace := [.keysFunc, .ParseAndVerifyInvitationToken (r.FormValue "token") (keysOf h s),
          .ChangePassword (inviteOf h s (r.FormValue "token")) (r.FormValue "password")]
        resp := .Redirect (h.urlString u) StatusSeeOther } := by
  unfold handlePOST
  simp only [keysErr, afterKeys, keysOf, tokenErr, afterToken, changeErr, inviteOf,
    afterChange, changeURL] at *
  rw [if_neg (not_not.mpr hk), if_neg (not_not.mpr ht), if_neg (not_not.mpr hc), hu]

/-! ## The claims -/

/-- C1: when key retrieval succeeds and token validation returns an error, both
`handleGET` and `handlePOST` answer with the terminal error "Bad Invitation Token"
under status 400, the form suppressed and no token embedded, and the trace of
either contains no call on the account store. -/
theorem bad_token_is_terminal (h : InvitationHandler σ K I L) (s : σ) (r : Request)
    (hk : keysErr h s = none) :
    (tokenErr h s (r.URLQueryGet "token") ≠ none →
      (handleGET h s r).resp =
          .execTemplateWithStatus
            { Error := "Bad Invitation Token", Message := "Your invitation could not be verified",
              Token := "", DontShowForm := true, Success := false } 400 ∧
        storeCalls (handleGET h s r).trace = []) ∧
    (tokenErr h s (r.FormValue "token") ≠ none →
      (handlePOST h s r).resp =
          .execTemplateWithStatus
            { Error := "Bad Invitation Token", Message := "Your invitation could not be verified",
              Token := "", DontShowForm := true, Success := false } 400 ∧
        storeCalls (handlePOST h s r).trace = []) := by
  constructor
  · intro ht
    rw [handleGET_token_failed h s r hk ht]
    exact ⟨rfl, rfl⟩
  · intro ht
    rw [handlePOST_token_failed h s r hk ht]
    exact ⟨rfl, rfl⟩

/-- Instance of C1: the concrete store, a fresh invitation, the empty token. -/
theorem bad_token_is_terminal_witness :
    keysErr demoHandler demoFresh = none ∧
    tokenErr demoHandler demoFresh "" ≠ none ∧
    (handleGET demoHandler demoFresh (demoRequest "GET" "" "secret1")).resp =
      TerminalError "Bad Invitation Token" "Your invitation could not be verified" 400 ∧
    (handlePOST demoHandler demoFresh (demoRequest "POST" "" "secret1")).resp =
      TerminalError "Bad Invitation Token" "Your invitation could not be verified" 400 :=
  ⟨by decide, by decide,
    ((bad_token_is_terminal demoHandler demoFresh (demoRequest "GET" "" "secret1")
      (by decide)).1 (by decide)).1,
    ((bad_token_is_terminal demoHandler demoFresh (demoRequest "POST" "" "secret1")
      (by decide)).2 (by decide)).1⟩

/-- C2: when key retrieval returns an error, both `handleGET` and `handlePOST`
answer with a terminal error under status 500, the form suppressed, and the trace
of either contains no token validation and no call on the account store. -/
theorem key_outage_is_internal_error (h : InvitationHandler σ K I L) (s : σ) (r : Request)
    (hk : keysErr h s ≠ none) :
    ((handleGET h s r).resp =
        .execTemplateWithStatus
          { Error := "There's been an error processing your request.",
            Message := "Please try again later.",
            Token := "", DontShowForm := true, Success := false } 500 ∧
      tokenValidations (handleGET h s r).trace = [] ∧
      storeCalls (handleGET h s r).trace = []) ∧
    ((handlePOST h s r).resp =
        .execTemplateWithStatus
          { Error := "There's been an error processing your request.",
            Message := "Please try again later.",
            Token := "", DontShowForm := true, Success := false } 500 ∧
      tokenValidations (handlePOST h s r).trace = [] ∧
      storeCalls (handlePOST h s r).trace = []) := by
  rw [handleGET_keys_failed h s r hk, handlePOST_keys_failed h s r hk]
  exact ⟨⟨rfl, rfl, rfl⟩, ⟨rfl, rfl, rfl⟩⟩

/-- Instance of C2: the concrete store with its key source down. -/
theorem key_outage_is_internal_error_witness :
    keysErr demoHandler demoNoKeys ≠ none ∧
    (handleGET demoHandler demoNoKeys (demoRequest "GET" "a@x.org" "")).resp =
      TerminalError "There's been an error processing your request."
        "Please try again later." 500 ∧
    (handlePOST demoHandler demoNoKeys (demoRequest "POST" "a@x.org" "secret1")).resp =
      TerminalError "There's been an error processing your request."
        "Please try again later." 500 :=
  ⟨by decide,
    (key_outage_is_internal_error demoHandler demoNoKeys (demoRequest "GET" "a@x.org" "")
      (by decide)).1.1,
    (key_outage_is_internal_error demoHandler demoNoKeys
      (demoRequest "POST" "a@x.org" "secret1") (by decide)).2.1⟩

/-- A bundle of the three facts that let a `handleGET` call reach the form, over
every state of an invariant that `VerifyEmail` preserves: repeating the call
gives the form every time. -/
theorem viewTimes_of_pass (h : InvitationHandler σ K I L) (r : Request) (Inv : σ → Prop)
    (hInv : ∀ s, Inv s →
      keysErr h s = none ∧ tokenErr h s (r.URLQueryGet "token") = none ∧
      (verifyErr h s (r.URLQueryGet "token") = none ∨
        verifyErr h s (r.URLQueryGet "token") = some Err.ErrorEmailAlreadyVerified) ∧
      Inv (afterVerify h s (r.URLQueryGet "token"))) :
    ∀ (n : Nat) (s : σ), Inv s →
      viewTimes h r n s = List.replicate n (ShowForm (r.URLQueryGet "token")) := by
  intro n
  induction n with
  | zero => intro s _; rfl
  | succ n ih =>
    intro s hs
    obtain ⟨hk, ht, hv, hnext⟩ := hInv s hs
    have hstep := handleGET_pass h s r hk ht hv
    simp only [viewTimes, List.replicate_succ]
    rw [hstep]
    simp only [ShowForm]
    rw [ih _ hnext]
    rfl

/-- C3: for a token that passes key retrieval and token validation, `handleGET`
answers with the form carrying exactly that token, no error title and no explicit
status, both when `VerifyEmail` returns no error and when it returns the
already-verified error; and over any set of states in which this is the store's
answer and which `VerifyEmail` does not leave, calling `handleGET` `n` times in a
row gives that same form `n` times. -/
theorem view_passes_when_already_verified (h : InvitationHandler σ K I L) (r : Request) :
    (∀ s, keysErr h s = none → tokenErr h s (r.URLQueryGet "token") = none →
      (verifyErr h s (r.URLQueryGet "token") = none ∨
        verifyErr h s (r.URLQueryGet "token") = some Err.ErrorEmailAlreadyVerified) →
      (handleGET h s r).resp =
        .execTemplate
          { Error := "", Message := "", Token := r.URLQueryGet "token", DontShowForm := false,
            Success := false }) ∧
    (∀ Inv : σ → Prop,
      (∀ s, Inv s →
        keysErr h s = none ∧ tokenErr h s (r.URLQueryGet "token") = none ∧
        (verifyErr h s (r.URLQueryGet "token") = none ∨
          verifyErr h s (r.URLQueryGet "token") = some Err.ErrorEmailAlreadyVerified) ∧
        Inv (afterVerify h s (r.URLQueryGet "token"))) →
      ∀ (n : Nat) (s : σ), Inv s →
        viewTimes h r n s =
          List.replicate n
            (.execTemplate
              { Error := "", Message := "", Token := r.URLQueryGet "token",
                DontShowForm := false, Success := false })) := by
  constructor
  · intro s hk ht hv
    rw [handleGET_pass h s r hk ht hv]
  · intro Inv hInv n s hs
    exact viewTimes_of_pass h r Inv hInv n s hs

/-- Instance of C3: on the concrete store, three views of a fresh invitation (the
first verifies the email, the next two find it verified) and a single view of
the verified account. -/
theorem view_passes_when_already_verified_witness :
    verifyErr demoHandler demoFresh "a@x.org" = none ∧
    verifyErr demoHandler demoVerified "a@x.org" = some Err.ErrorEmailAlreadyVerified ∧
    (handleGET demoHandler demoVerified (demoRequest "GET" "a@x.org" "")).resp =
      ShowForm "a@x.org" ∧
    viewTimes demoHandler (demoRequest "GET" "a@x.org" "") 3 demoFresh =
      [ShowForm "a@x.org", ShowForm "a@x.org", ShowForm "a@x.org"] :=
  ⟨by decide, by decide,
    (view_passes_when_already_verified demoHandler (demoRequest "GET" "a@x.org" "")).1
      demoVerified (by decide) (by decide) (Or.inr (by decide)),
    (view_passes_when_already_verified demoHandler (demoRequest "GET" "a@x.org" "")).2
      (fun w => w = demoFresh ∨ w = demoVerified)
      (by rintro w (rfl | rfl) <;> decide) 3 demoFresh (Or.inl rfl)⟩

theorem ServeHTTP_GET (h : InvitationHandler σ K I L) (s : σ) (r : Request)
    (hm : r.Method = "GET") : ServeHTTP h s r = handleGET h s r := by
  unfold ServeHTTP
  rw [if_pos hm]

theorem ServeHTTP_POST (h : InvitationHandler σ K I L) (s : σ) (r : Request)
    (hm : r.Method = "POST") : ServeHTTP h s r = handlePOST h s r := by
  unfold ServeHTTP
  have hne : ¬ r.Method = "GET" := by rw [hm]; decide
  rw [if_neg hne, if_pos hm]

/-- Over every state of an invariant in which the store answers "password already
changed" to both operations, any sequence of views and submits for the token is
answered with "Link Expired" throughout. -/
theorem serveAll_of_consumed (h : InvitationHandler σ K I L) (t : String) (Inv : σ → Prop)
    (hInv : ∀ s, Inv s →
      keysErr h s = none ∧ tokenErr h s t = none ∧
      (verifyErr h s t = some Err.ErrorPasswordAlreadyChanged ∧ Inv (afterVerify h s t)) ∧
      ∀ p, changeErr h s t p = some Err.ErrorPasswordAlreadyChanged ∧
        Inv (afterChange h s t p)) :
    ∀ (rs : List Request) (s : σ), Inv s →
      (∀ r ∈ rs, (r.Method = "GET" ∧ r.URLQueryGet "token" = t) ∨
        (r.Method = "POST" ∧ r.FormValue "token" = t)) →
      serveAll h s rs =
        rs.map (fun r =>
          if r.Method = "GET" then
            TerminalError "Link Expired"
              "Your invitation link is no longer valid. Please request a new one" 400
          else
            TerminalError "Link Expired"
              "The invitation is no longer valid. If you need to change your password, generate a new password change email."
              400) := by
  intro rs
  induction rs with
  | nil => intro s _ _; rfl
  | cons r rs ih =>
    intro s hs hrs
    obtain ⟨hk, ht, ⟨hv, hnv⟩, hc⟩ := hInv s hs
    have hrest : ∀ r' ∈ rs, (r'.Method = "GET" ∧ r'.URLQueryGet "token" = t) ∨
        (r'.Method = "POST" ∧ r'.FormValue "token" = t) :=
      fun r' hr' => hrs r' (List.mem_cons_of_mem _ hr')
    rcases hrs r (List.mem_cons_self _ _) with ⟨hm, htok⟩ | ⟨hm, htok⟩
    · have hstep := handleGET_already_changed h s r hk (by rw [htok]; exact ht)
        (by rw [htok]; exact hv)
      simp only [serveAll, List.map_cons]
      rw [ServeHTTP_GET h s r hm, hstep, if_pos hm]
      simp only []
      rw [htok, ih _ hnv hrest]
      rfl
    · have hne : ¬ r.Method = "GET" := by rw [hm]; decide
      have hstep := handlePOST_already_changed h s r hk (by rw [htok]; exact ht)
        (by rw [htok]; exact (hc _).1)
      simp only [serveAll, List.map_cons]
      rw [ServeHTTP_POST h s r hm, hstep, if_neg hne]
      simp only []
      rw [htok, ih _ (hc _).2 hrest]
      rfl

/-- C4: for a token that passes key retrieval and token validation, if the store
reports "password already changed" (from `VerifyEmail` in `handleGET`, from
`ChangePassword` in `handlePOST`), each answers with the terminal error "Link
Expired" under status 400, the form suppressed and no token embedded, so
`handlePOST` answers with neither the success page nor a redirect; and over any
set of states in which this is the store's answer and which the store does not
leave, every sequence of GET and POST requests for the token, in any order, is
answered with "Link Expired" throughout. -/
theorem consumed_invitation_is_link_expired (h : InvitationHandler σ K I L) (t : String) :
    (∀ s r, keysErr h s = none → tokenErr h s (r.URLQueryGet "token") = none →
      verifyErr h s (r.URLQueryGet "token") = some Err.ErrorPasswordAlreadyChanged →
      (handleGET h s r).resp =
        .execTemplateWithStatus
          { Error := "Link Expired",
            Message := "Your invitation link is no longer valid. Please request a new one",
            Token := "", DontShowForm := true, Success := false } 400) ∧
    (∀ s r, keysErr h s = none → tokenErr h s (r.FormValue "token") = none →
      changeErr h s (r.FormValue "token") (r.FormValue "password") =
        some Err.ErrorPasswordAlreadyChanged →
      (handlePOST h s r).resp =
        .execTemplateWithStatus
          { Error := "Link Expired",
            Message := "The invitation is no longer valid. If you need to change your password, generate a new password change email.",
            Token := "", DontShowForm := true, Success := false } 400) ∧
    (∀ Inv : σ → Prop,
      (∀ s, Inv s →
        keysErr h s = none ∧ tokenErr h s t = none ∧
        (verifyErr h s t = some Err.ErrorPasswordAlreadyChanged ∧ Inv (afterVerify h s t)) ∧
        ∀ p, changeErr h s t p = some Err.ErrorPasswordAlreadyChanged ∧
          Inv (afterChange h s t p)) →
      ∀ (rs : List Request) (s : σ), Inv s →
        (∀ r ∈ rs, (r.Method = "GET" ∧ r.URLQueryGet "token" = t) ∨
          (r.Method = "POST" ∧ r.FormValue "token" = t)) →
        serveAll h s rs =
          rs.map (fun r =>
            if r.Method = "GET" then
              .execTemplateWithStatus
                { Error := "Link Expired",
                  Message := "Your invitation link is no longer valid. Please request a new one",
                  Token := "", DontShowForm := true, Success := false } 400
            else
              .execTemplateWithStatus
                { Error := "Link Expired",
                  Message := "The invitation is no longer valid. If you need to change your password, generate a new password change email.",
                  Token := "", DontShowForm := true, Success := false } 400)) := by
  refine ⟨?_, ?_, ?_⟩
  · intro s r hk ht hv
    rw [handleGET_already_changed h s r hk ht hv]
    rfl
  · intro s r hk ht hc
    rw [handlePOST_already_changed h s r hk ht hc]
    rfl
  · intro Inv hInv rs s hs hrs
    exact serveAll_of_consumed h t Inv hInv rs s hs hrs

/-- Instance of C4: on the concrete store with the password already set, a view,
a submit, and the two in both orders. -/
theorem consumed_invitation_is_link_expired_witness :
    verifyErr demoHandler demoConsumed "a@x.org" = some Err.ErrorPasswordAlreadyChanged ∧
    changeErr demoHandler demoConsumed "a@x.org" "secret1" =
      some Err.ErrorPasswordAlreadyChanged ∧
    (handleGET demoHandler demoConsumed (demoRequest "GET" "a@x.org" "")).resp =
      TerminalError "Link Expired"
        "Your invitation link is no longer valid. Please request a new one" 400 ∧
    (handlePOST demoHandler demoConsumed (demoRequest "POST" "a@x.org" "secret1")).resp =
      TerminalError "Link Expired"
        "The invitation is no longer valid. If you need to change your password, generate a new password change email."
        400 ∧
    serveAll demoHandler demoConsumed
        [demoRequest "GET" "a@x.org" "", demoRequest "POST" "a@x.org" "secret1",
          demoRequest "POST" "a@x.org" "secret1", demoRequest "GET" "a@x.org" ""] =
      [TerminalError "Link Expired"
          "Your invitation link is no longer valid. Please request a new one" 400,
        TerminalError "Link Expired"
          "The invitation is no longer valid. If you need to change your password, generate a new password change email."
          400,
        TerminalError "Link Expired"
          "The invitation is no longer valid. If you need to change your password, generate a new password change email."
          400,
        TerminalError "Link Expired"
          "Your invitation link is no longer valid. Please request a new one" 400] :=
  ⟨by decide, by decide,
    (consumed_invitation_is_link_expired demoHandler "a@x.org").1 demoConsumed
      (demoRequest "GET" "a@x.org" "") (by decide) (by decide) (by decide),
    (consumed_invitation_is_link_expired demoHandler "a@x.org").2.1 demoConsumed
      (demoRequest "POST" "a@x.org" "secret1") (by decide) (by decide) (by decide),
    (consumed_invitation_is_link_expired demoHandler "a@x.org").2.2
      (fun w => w = demoConsumed)
      (by
        rintro w rfl
        refine ⟨by decide, by decide, ⟨by decide, by decide⟩, fun p => ⟨rfl, rfl⟩⟩)
      [demoRequest "GET" "a@x.org" "", demoRequest "POST" "a@x.org" "secret1",
        demoRequest "POST" "a@x.org" "secret1", demoRequest "GET" "a@x.org" ""]
      demoConsumed rfl (by decide)⟩

/-- C5: for a token that passes key retrieval and token validation, if
`ChangePassword` reports "invalid password", `handlePOST` answers with the
recoverable error "Invalid Password" under status 400, the form shown and the
submitted token embedded; its only call on the account store is that one
`ChangePassword`, and the state it leaves is the one `ChangePassword` left. -/
theorem weak_password_is_recoverable (h : InvitationHandler σ K I L) (s : σ) (r : Request)
    (hk : keysErr h s = none) (ht : tokenErr h s (r.FormValue "token") = none)
    (hc : changeErr h s (r.FormValue "token") (r.FormValue "password") =
      some Err.ErrorInvalidPassword) :
    (handlePOST h s r).resp =
        .execTemplateWithStatus
          { Error := "Invalid Password",
            Message := "Please choose a password which is at least six characters.",
            Token := r.FormValue "token", DontShowForm := false, Success := false } 400 ∧
      storeCalls (handlePOST h s r).trace =
        [.ChangePassword (inviteOf h s (r.FormValue "token")) (r.FormValue "password")] ∧
      (handlePOST h s r).state =
        afterChange h s (r.FormValue "token") (r.FormValue "password") := by
  rw [handlePOST_invalid_password h s r hk ht hc]
  exact ⟨rfl, rfl, rfl⟩

/-- Instance of C5: on the concrete store, a three-character password. -/
theorem weak_password_is_recoverable_witness :
    changeErr demoHandler demoFresh "a@x.org" "abc" = some Err.ErrorInvalidPassword ∧
    (handlePOST demoHandler demoFresh (demoRequest "POST" "a@x.org" "abc")).resp =
      RecoverableError "Invalid Password"
        "Please choose a password which is at least six characters." "a@x.org" 400 ∧
    (handlePOST demoHandler demoFresh (demoRequest "POST" "a@x.org" "abc")).state =
      demoFresh :=
  ⟨by decide,
    (weak_password_is_recoverable demoHandler demoFresh (demoRequest "POST" "a@x.org" "abc")
      (by decide) (by decide) (by decide)).1,
    (weak_password_is_recoverable demoHandler demoFresh (demoRequest "POST" "a@x.org" "abc")
      (by decide) (by decide) (by decide)).2.2⟩

/-- C6: for a token and password that pass key retrieval and token validation, if
`ChangePassword` returns no error, `handlePOST` answers with the success page when
no callback URL came back, and with a 303 redirect to the string form of the
callback URL when one did. -/
theorem password_set_is_success (h : InvitationHandler σ K I L) (s : σ) (r : Request)
    (hk : keysErr h s = none) (ht : tokenErr h s (r.FormValue "token") = none)
    (hc : changeErr h s (r.FormValue "token") (r.FormValue "password") = none) :
    (changeURL h s (r.FormValue "token") (r.FormValue "password") = none →
      (handlePOST h s r).resp =
        .execTemplate
          { Error := "", Message := "", Token := "", DontShowForm := false, Success := true }) ∧
    (∀ u, changeURL h s (r.FormValue "token") (r.FormValue "password") = some u →
      (handlePOST h s r).resp = .Redirect (h.urlString u) 303) := by
  constructor
  · intro hu
    rw [handlePOST_success_page h s r hk ht hc hu]
  · intro u hu
    rw [handlePOST_redirect h s r u hk ht hc hu]
    rfl

/-- Instance of C6: on the concrete store, a six-character password, without and
with a recorded callback. -/
theorem password_set_is_success_witness :
    changeErr demoHandler demoFresh "a@x.org" "secret1" = none ∧
    (handlePOST demoHandler demoFresh (demoRequest "POST" "a@x.org" "secret1")).resp =
      SuccessPage ∧
    (handlePOST demoHandler demoCallback (demoRequest "POST" "a@x.org" "secret1")).resp =
      .Redirect "https://app.example/done" 303 :=
  ⟨by decide,
    (password_set_is_success demoHandler demoFresh (demoRequest "POST" "a@x.org" "secret1")
      (by decide) (by decide) (by decide)).1 (by decide),
    (password_set_is_success demoHandler demoCallback (demoRequest "POST" "a@x.org" "secret1")
      (by decide) (by decide) (by decide)).2 "https://app.example/done" (by decide)⟩

/-- C7: for a token that passes key retrieval and token validation, if
`VerifyEmail` reports that the email does not match, `handleGET` answers with the
terminal error "Invalid Invitation Link" under status 400, the form suppressed and
no token embedded; its only call on the account store is that one `VerifyEmail`,
and the state it leaves is the one `VerifyEmail` left. -/
theorem email_mismatch_is_terminal (h : InvitationHandler σ K I L) (s : σ) (r : Request)
    (hk : keysErr h s = none) (ht : tokenErr h s (r.URLQueryGet "token") = none)
    (hv : verifyErr h s (r.URLQueryGet "token") = some Err.ErrorEVEmailDoesntMatch) :
    (handleGET h s r).resp =
        .execTemplateWithStatus
          { Error := "Invalid Invitation Link",
            Message := "Your email does not match the email address on file.",
            Token := "", DontShowForm := true, Success := false } 400 ∧
      storeCalls (handleGET h s r).trace =
        [.VerifyEmail (inviteOf h s (r.URLQueryGet "token"))] ∧
      (handleGET h s r).state = afterVerify h s (r.URLQueryGet "token") := by
  rw [handleGET_mismatch h s r hk ht hv]
  exact ⟨rfl, rfl, rfl⟩

/-- Instance of C7: on the concrete store, a token for another email address; the
account stays unverified. -/
theorem email_mismatch_is_terminal_witness :
    verifyErr demoHandler demoFresh "b@x.org" = some Err.ErrorEVEmailDoesntMatch ∧
    (handleGET demoHandler demoFresh (demoRequest "GET" "b@x.org" "")).resp =
      TerminalError "Invalid Invitation Link"
        "Your email does not match the email address on file." 400 ∧
    (handleGET demoHandler demoFresh (demoRequest "GET" "b@x.org" "")).state = demoFresh :=
  ⟨by decide,
    (email_mismatch_is_terminal demoHandler demoFresh (demoRequest "GET" "b@x.org" "")
      (by decide) (by decide) (by decide)).1,
    (email_mismatch_is_terminal demoHandler demoFresh (demoRequest "GET" "b@x.org" "")
      (by decide) (by decide) (by decide)).2.2⟩

/-- Every response of `handleGET` is one of its six outcomes. -/
theorem handleGET_outcomes (h : InvitationHandler σ K I L) (s : σ) (r : Request) :
    (handleGET h s r).resp ∈
      [TerminalError "There's been an error processing your request."
          "Please try again later." 500,
        TerminalError "Bad Invitation Token" "Your invitation could not be verified" 400,
        TerminalError "Invalid Invitation Link"
          "Your email does not match the email address on file." 400,
        TerminalError "Link Expired"
          "Your invitation link is no longer valid. Please request a new one" 400,
        TerminalError "Error Processing Request" "Please try again later." 500,
        ShowForm (r.URLQueryGet "token")] := by
  by_cases hk : keysErr h s = none
  · by_cases ht : tokenErr h s (r.URLQueryGet "token") = none
    · cases hv : verifyErr h s (r.URLQueryGet "token") with
      | none =>
        rw [handleGET_pass h s r hk ht (Or.inl hv)]
        simp [ShowForm]
      | some e =>
        cases e with
        | ErrorEmailAlreadyVerified =>
          rw [handleGET_pass h s r hk ht (Or.inr hv)]
          simp [ShowForm]
        | ErrorEVEmailDoesntMatch =>
          rw [handleGET_mismatch h s r hk ht hv]
          simp [TerminalError, StatusBadRequest]
        | ErrorPasswordAlreadyChanged =>
          rw [handleGET_already_changed h s r hk ht hv]
          simp [TerminalError, StatusBadRequest]
        | ErrorInvalidPassword =>
          rw [handleGET_unexpected h s r _ hk ht hv (by decide) (by decide) (by decide)]
          simp [TerminalError, StatusInternalServerError]
        | other text =>
          rw [handleGET_unexpected h s r _ hk ht hv (by simp) (by simp) (by simp)]
          simp [TerminalError, StatusInternalServerError]
    · rw [handleGET_token_failed h s r hk ht]
      simp [TerminalError, StatusBadRequest]
  · rw [handleGET_keys_failed h s r hk]
    simp [TerminalError, StatusInternalServerError]

/-- Every response of `handlePOST` is one of its seven outcomes. -/
theorem handlePOST_outcomes (h : InvitationHandler σ K I L) (s : σ) (r : Request) :
    (handlePOST h s r).resp ∈
        [TerminalError "There's been an error processing your request."
            "Please try again later." 500,
          TerminalError "Bad Invitation Token" "Your invitation could not be verified" 400,
          TerminalError "Link Expired"
            "The invitation is no longer valid. If you need to change your password, generate a new password change email."
            400,
          RecoverableError "Invalid Password"
            "Please choose a password which is at least six characters." (r.FormValue "token")
            400,
          TerminalError "Error Processing Request" "Please try again later" 500,
          SuccessPage] ∨
      ∃ u, (handlePOST h s r).resp = .Redirect (h.urlString u) 303 := by
  by_cases hk : keysErr h s = none
  · by_cases ht : tokenErr h s (r.FormValue "token") = none
    · cases hc : changeErr h s (r.FormValue "token") (r.FormValue "password") with
      | none =>
        cases hu : changeURL h s (r.FormValue "token") (r.FormValue "password") with
        | none =>
          left
          rw [handlePOST_success_page h s r hk ht hc hu]
          simp [SuccessPage]
        | some u =>
          right
          refine ⟨u, ?_⟩
          rw [handlePOST_redirect h s r u hk ht hc hu]
          rfl
      | some e =>
        left
        cases e with
        | ErrorEmailAlreadyVerified =>
          rw [handlePOST_unexpected h s r _ hk ht hc (by decide) (by decide)]
          simp [TerminalError, StatusInternalServerError]
        | ErrorEVEmailDoesntMatch =>
          rw [handlePOST_unexpected h s r _ hk ht hc (by decide) (by decide)]
          simp [TerminalError, StatusInternalServerError]
        | ErrorPasswordAlreadyChanged =>
          rw [handlePOST_already_changed h s r hk ht hc]
          simp [TerminalError, StatusBadRequest]
        | ErrorInvalidPassword =>
          rw [handlePOST_invalid_password h s r hk ht hc]
          simp [RecoverableError, StatusBadRequest]
        | other text =>
          rw [handlePOST_unexpected h s r _ hk ht hc (by simp) (by simp)]
          simp [TerminalError, StatusInternalServerError]
    · left
      rw [handlePOST_token_failed h s r hk ht]
      simp [TerminalError, StatusBadRequest]
  · left
    rw [handlePOST_keys_failed h s r hk]
    simp [TerminalError, StatusInternalServerError]

/-- C8: for a token that passes key retrieval and token validation, every error
returned by `VerifyEmail` in `handleGET` other than already-verified,
email-mismatch and password-already-changed, and every error returned by
`ChangePassword` in `handlePOST` other than password-already-changed and
invalid-password, is answered with the terminal error "Error Processing
Request" under status 500, the form suppressed and no token embedded; and
whatever the collaborators return, the response of `handleGET` is one of its six
outcomes and the response of `handlePOST` one of its seven. -/
theorem store_errors_have_a_default (h : InvitationHandler σ K I L) (s : σ) (r : Request) :
    (∀ e, keysErr h s = none → tokenErr h s (r.URLQueryGet "token") = none →
      verifyErr h s (r.URLQueryGet "token") = some e →
      e ≠ Err.ErrorEmailAlreadyVerified → e ≠ Err.ErrorEVEmailDoesntMatch →
      e ≠ Err.ErrorPasswordAlreadyChanged →
      (handleGET h s r).resp =
        .execTemplateWithStatus
          { Error := "Error Processing Request", Message := "Please try again later.",
            Token := "", DontShowForm := true, Success := false } 500) ∧
    (∀ e, keysErr h s = none → tokenErr h s (r.FormValue "token") = none →
      changeErr h s (r.FormValue "token") (r.FormValue "password") = some e →
      e ≠ Err.ErrorPasswordAlreadyChanged → e ≠ Err.ErrorInvalidPassword →
      (handlePOST h s r).resp =
        .execTemplateWithStatus
          { Error := "Error Processing Request", Message := "Please try again later",
            Token := "", DontShowForm := true, Success := false } 500) ∧
    (handleGET h s r).resp ∈
      [TerminalError "There's been an error processing your request."
          "Please try again later." 500,
        TerminalError "Bad Invitation Token" "Your invitation could not be verified" 400,
        TerminalError "Invalid Invitation Link"
          "Your email does not match the email address on file." 400,
        TerminalError "Link Expired"
          "Your invitation link is no longer valid. Please request a new one" 400,
        TerminalError "Error Processing Request" "Please try again later." 500,
        ShowForm (r.URLQueryGet "token")] ∧
    ((handlePOST h s r).resp ∈
        [TerminalError "There's been an error processing your request."
            "Please try again later." 500,
          TerminalError "Bad Invitation Token" "Your invitation could not be verified" 400,
          TerminalError "Link Expired"
            "The invitation is no longer valid. If you need to change your password, generate a new password change email."
            400,
          RecoverableError "Invalid Password"
            "Please choose a password which is at least six characters." (r.FormValue "token")
            400,
          TerminalError "Error Processing Request" "Please try again later" 500,
          SuccessPage] ∨
      ∃ u, (handlePOST h s r).resp = .Redirect (h.urlString u) 303) := by
  refine ⟨?_, ?_, handleGET_outcomes h s r, handlePOST_outcomes h s r⟩
  · intro e hk ht hv h1 h2 h3
    rw [handleGET_unexpected h s r e hk ht hv h1 h2 h3]
    rfl
  · intro e hk ht hc h1 h2
    rw [handlePOST_unexpected h s r e hk ht hc h1 h2]
    rfl

/-- Instance of C8: on the concrete store with its database down. -/
theorem store_errors_have_a_default_witness :
    verifyErr demoHandler demoNoDb "a@x.org" = some (Err.other "db") ∧
    changeErr demoHandler demoNoDb "a@x.org" "secret1" = some (Err.other "db") ∧
    (handleGET demoHandler demoNoDb (demoRequest "GET" "a@x.org" "")).resp =
      TerminalError "Error Processing Request" "Please try again later." 500 ∧
    (handlePOST demoHandler demoNoDb (demoRequest "POST" "a@x.org" "secret1")).resp =
      TerminalError "Error Processing Request" "Please try again later" 500 :=
  ⟨by decide, by decide,
    (store_errors_have_a_default demoHandler demoNoDb (demoRequest "GET" "a@x.org" "")).1
      (Err.other "db") (by decide) (by decide) (by decide) (by decide) (by decide) (by decide),
    (store_errors_have_a_default demoHandler demoNoDb
      (demoRequest "POST" "a@x.org" "secret1")).2.1
      (Err.other "db") (by decide) (by decide) (by decide) (by decide) (by decide)⟩

/-- C9 as stated fails: on the concrete store with the password already set, view
and submit meet the same failure ("password already changed") and answer with
the same title and status but with different messages, so the two outcomes are
not equal. -/
theorem link_expired_messages_differ :
    verifyErr demoHandler demoConsumed "a@x.org" = some Err.ErrorPasswordAlreadyChanged ∧
    changeErr demoHandler demoConsumed "a@x.org" "secret1" =
      some Err.ErrorPasswordAlreadyChanged ∧
    (handleGET demoHandler demoConsumed (demoRequest "GET" "a@x.org" "secret1")).resp =
      TerminalError "Link Expired"
        "Your invitation link is no longer valid. Please request a new one" 400 ∧
    (handlePOST demoHandler demoConsumed (demoRequest "POST" "a@x.org" "secret1")).resp =
      TerminalError "Link Expired"
        "The invitation is no longer valid. If you need to change your password, generate a new password change email."
        400 ∧
    (handleGET demoHandler demoConsumed (demoRequest "GET" "a@x.org" "secret1")).resp ≠
      (handlePOST demoHandler demoConsumed (demoRequest "POST" "a@x.org" "secret1")).resp := by
  decide

/-- C9, amended: for a view in state `s` and a submit in state `s'` that meet the
same kind of failure, the two outcomes are equal in every field when the failure
is key retrieval or token validation; when the store reports "password already
changed" both are the terminal error "Link Expired" under status 400, each with
its own message; and when the store returns any other unexpected error both are
the terminal error "Error Processing Request" under status 500 (nothing is said
of the message there). -/
theorem shared_failures_agree (h : InvitationHandler σ K I L) (s s' : σ) (r r' : Request) :
    (keysErr h s ≠ none → keysErr h s' ≠ none →
      (handleGET h s r).resp = (handlePOST h s' r').resp) ∧
    (keysErr h s = none → keysErr h s' = none →
      tokenErr h s (r.URLQueryGet "token") ≠ none →
      tokenErr h s' (r'.FormValue "token") ≠ none →
      (handleGET h s r).resp = (handlePOST h s' r').resp) ∧
    (keysErr h s = none → keysErr h s' = none →
      tokenErr h s (r.URLQueryGet "token") = none →
      tokenErr h s' (r'.FormValue "token") = none →
      verifyErr h s (r.URLQueryGet "token") = some Err.ErrorPasswordAlreadyChanged →
      changeErr h s' (r'.FormValue "token") (r'.FormValue "password") =
        some Err.ErrorPasswordAlreadyChanged →
      (handleGET h s r).resp =
          TerminalError "Link Expired"
            "Your invitation link is no longer valid. Please request a new one" 400 ∧
        (handlePOST h s' r').resp =
          TerminalError "Link Expired"
            "The invitation is no longer valid. If you need to change your password, generate a new password change email."
            400) ∧
    (∀ e e', keysErr h s = none → keysErr h s' = none →
      tokenErr h s (r.URLQueryGet "token") = none →
      tokenErr h s' (r'.FormValue "token") = none →
      verifyErr h s (r.URLQueryGet "token") = some e →
      changeErr h s' (r'.FormValue "token") (r'.FormValue "password") = some e' →
      e ≠ Err.ErrorEmailAlreadyVerified → e ≠ Err.ErrorEVEmailDoesntMatch →
      e ≠ Err.ErrorPasswordAlreadyChanged →
      e' ≠ Err.ErrorPasswordAlreadyChanged → e' ≠ Err.ErrorInvalidPassword →
      ∃ m m',
        (handleGET h s r).resp = TerminalError "Error Processing Request" m 500 ∧
        (handlePOST h s' r').resp = TerminalError "Error Processing Request" m' 500) := by
  refine ⟨?_, ?_, ?_, ?_⟩
  · intro hk hk'
    rw [handleGET_keys_failed h s r hk, handlePOST_keys_failed h s' r' hk']
  · intro hk hk' ht ht'
    rw [handleGET_token_failed h s r hk ht, handlePOST_token_failed h s' r' hk' ht']
  · intro hk hk' ht ht' hv hc
    rw [handleGET_already_changed h s r hk ht hv,
      handlePOST_already_changed h s' r' hk' ht' hc]
    exact ⟨rfl, rfl⟩
  · intro e e' hk hk' ht ht' hv hc h1 h2 h3 h4 h5
    rw [handleGET_unexpected h s r e hk ht hv h1 h2 h3,
      handlePOST_unexpected h s' r' e' hk' ht' hc h4 h5]
    exact ⟨_, _, rfl, rfl⟩

/-- Instance of the amended C9: on the concrete store, one view and one submit for
each of the four shared failures. -/
theorem shared_failures_agree_witness :
    (handleGET demoHandler demoNoKeys (demoRequest "GET" "a@x.org" "")).resp =
      (handlePOST demoHandler demoNoKeys (demoRequest "POST" "a@x.org" "secret1")).resp ∧
    (handleGET demoHandler demoFresh (demoRequest "GET" "" "")).resp =
      (handlePOST demoHandler demoFresh (demoRequest "POST" "" "secret1")).resp ∧
    (handleGET demoHandler demoConsumed (demoRequest "GET" "a@x.org" "")).resp =
      TerminalError "Link Expired"
        "Your invitation link is no longer valid. Please request a new one" 400 ∧
    (∃ m m',
      (handleGET demoHandler demoNoDb (demoRequest "GET" "a@x.org" "")).resp =
        TerminalError "Error Processing Request" m 500 ∧
      (handlePOST demoHandler demoNoDb (demoRequest "POST" "a@x.org" "secret1")).resp =
        TerminalError "Error Processing Request" m' 500) :=
  ⟨(shared_failures_agree demoHandler demoNoKeys demoNoKeys (demoRequest "GET" "a@x.org" "")
      (demoRequest "POST" "a@x.org" "secret1")).1 (by decide) (by decide),
    (shared_failures_agree demoHandler demoFresh demoFresh (demoRequest "GET" "" "")
      (demoRequest "POST" "" "secret1")).2.1 (by decide) (by decide) (by decide) (by decide),
    ((shared_failures_agree demoHandler demoConsumed demoConsumed
      (demoRequest "GET" "a@x.org" "") (demoRequest "POST" "a@x.org" "secret1")).2.2.1
      (by decide) (by decide) (by decide) (by decide) (by decide) (by decide)).1,
    (shared_failures_agree demoHandler demoNoDb demoNoDb (demoRequest "GET" "a@x.org" "")
      (demoRequest "POST" "a@x.org" "secret1")).2.2.2 (Err.other "db") (Err.other "db")
      (by decide) (by decide) (by decide) (by decide) (by decide) (by decide)
      (by decide) (by decide) (by decide) (by decide) (by decide)⟩

/-- C10: `ServeHTTP` looks at the request method only: for "GET" its step is that
of `handleGET`, for "POST" that of `handlePOST`, and for every other method it
writes the API error 405 (invalid request, "method not allowed") with an empty
trace, so without key retrieval, token validation or a call on the account
store, and leaves the state as it was. -/
theorem ServeHTTP_dispatches_on_method (h : InvitationHandler σ K I L) (s : σ) (r : Request) :
    (r.Method = "GET" → ServeHTTP h s r = handleGET h s r) ∧
    (r.Method = "POST" → ServeHTTP h s r = handlePOST h s r) ∧
    (r.Method ≠ "GET" → r.Method ≠ "POST" →
      (ServeHTTP h s r).resp = .writeAPIError 405 h.errorInvalidRequest "method not allowed" ∧
      (ServeHTTP h s r).trace = [] ∧
      keyRetrievals (ServeHTTP h s r).trace = [] ∧
      tokenValidations (ServeHTTP h s r).trace = [] ∧
      storeCalls (ServeHTTP h s r).trace = [] ∧
      (ServeHTTP h s r).state = s) := by
  refine ⟨ServeHTTP_GET h s r, ServeHTTP_POST h s r, ?_⟩
  intro hg hp
  unfold ServeHTTP
  rw [if_neg hg, if_neg hp]
  exact ⟨rfl, rfl, rfl, rfl, rfl, rfl⟩

/-- Instance of C10: on the concrete store, a GET, a POST, and a PUT and a
lower-case "get", both of which are refused. -/
theorem ServeHTTP_dispatches_on_method_witness :
    ServeHTTP demoHandler demoFresh (demoRequest "GET" "a@x.org" "") =
      handleGET demoHandler demoFresh (demoRequest "GET" "a@x.org" "") ∧
    ServeHTTP demoHandler demoFresh (demoRequest "POST" "a@x.org" "secret1") =
      handlePOST demoHandler demoFresh (demoRequest "POST" "a@x.org" "secret1") ∧
    (ServeHTTP demoHandler demoFresh (demoRequest "PUT" "a@x.org" "secret1")).resp =
      .writeAPIError 405 "invalid_request" "method not allowed" ∧
    (ServeHTTP demoHandler demoFresh (demoRequest "get" "a@x.org" "")).resp =
      .writeAPIError 405 "invalid_request" "method not allowed" :=
  ⟨(ServeHTTP_dispatches_on_method demoHandler demoFresh (demoRequest "GET" "a@x.org" "")).1
      rfl,
    (ServeHTTP_dispatches_on_method demoHandler demoFresh
      (demoRequest "POST" "a@x.org" "secret1")).2.1 rfl,
    ((ServeHTTP_dispatches_on_method demoHandler demoFresh
      (demoRequest "PUT" "a@x.org" "secret1")).2.2 (by decide) (by decide)).1,
    ((ServeHTTP_dispatches_on_method demoHandler demoFresh
      (demoRequest "get" "a@x.org" "")).2.2 (by decide) (by decide)).1⟩

end Server
